import Mathlib

/-!
Verification development for the glom media server
(`src/glom/server.py`).

The development shallowly embeds the ingestion / content-deduplication
pipeline of the server:

* `get_file_fingerprint` — the Fingerprint Computer (server.py 120-133):
  64KB block reads fed into an incremental MD5 accumulator, with a
  gzip-decompression attempt and raw fallback.  MD5 is implemented
  executably over byte lists (`md5hex`).  The gzip transport decoding
  performed by Python's `gzip` standard library is an external
  collaborator of the repository; it is modelled executably by
  `gunzip?` / `gzipCompress` (RFC 1952 member with stored DEFLATE
  blocks, CRC32 and ISIZE trailer).
* `validate_item`, `add_item` — the Ingestion Intake (server.py 201-226,
  258-263).  The MongoDB collection is modelled as a list of
  `MediaRecord`s with `find_one` / `update_one` (first-match, `$set`
  partial-update semantics); the uuid4 hex identifier is an input.
* `begin_download`, `download_media` — the background pipeline
  (server.py 74-118).  The filesystem is a path→bytes association list;
  the network transfer outcome and the libmagic MIME sniff are inputs
  (`DownloadOutcome`, `Option String`).  The thread spawned by
  `glom_media` is modelled by returning the task's payload to be run;
  an exception escaping the daemon thread is modelled by the pipeline
  returning the unchanged store together with a `false` completion flag.
-/

namespace Glom

/-! ### MD5 over byte lists (hashlib.md5, external collaborator) -/

/-- Left-rotation of a 32-bit word represented as a `Nat < 2^32`. -/
def rotl32 (x n : Nat) : Nat :=
  (x * 2 ^ n + x / 2 ^ (32 - n)) % 4294967296

/-- The MD5 round constants `K[i] = floor(2^32 * |sin(i+1)|)`. -/
def md5K : List Nat :=
  [0xd76aa478, 0xe8c7b756, 0x242070db, 0xc1bdceee,
   0xf57c0faf, 0x4787c62a, 0xa8304613, 0xfd469501,
   0x698098d8, 0x8b44f7af, 0xffff5bb1, 0x895cd7be,
   0x6b901122, 0xfd987193, 0xa679438e, 0x49b40821,
   0xf61e2562, 0xc040b340, 0x265e5a51, 0xe9b6c7aa,
   0xd62f105d, 0x02441453, 0xd8a1e681, 0xe7d3fbc8,
   0x21e1cde6, 0xc33707d6, 0xf4d50d87, 0x455a14ed,
   0xa9e3e905, 0xfcefa3f8, 0x676f02d9, 0x8d2a4c8a,
   0xfffa3942, 0x8771f681, 0x6d9d6122, 0xfde5380c,
   0xa4beea44, 0x4bdecfa9, 0xf6bb4b60, 0xbebfbc70,
   0x289b7ec6, 0xeaa127fa, 0xd4ef3085, 0x04881d05,
   0xd9d4d039, 0xe6db99e5, 0x1fa27cf8, 0xc4ac5665,
   0xf4292244, 0x432aff97, 0xab9423a7, 0xfc93a039,
   0x655b59c3, 0x8f0ccc92, 0xffeff47d, 0x85845dd1,
   0x6fa87e4f, 0xfe2ce6e0, 0xa3014314, 0x4e0811a1,
   0xf7537e82, 0xbd3af235, 0x2ad7d2bb, 0xeb86d391]

/-- The MD5 per-round left-rotation amounts. -/
def md5S : List Nat :=
  [7, 12, 17, 22, 7, 12, 17, 22, 7, 12, 17, 22, 7, 12, 17, 22,
   5, 9, 14, 20, 5, 9, 14, 20, 5, 9, 14, 20, 5, 9, 14, 20,
   4, 11, 16, 23, 4, 11, 16, 23, 4, 11, 16, 23, 4, 11, 16, 23,
   6, 10, 15, 21, 6, 10, 15, 21, 6, 10, 15, 21, 6, 10, 15, 21]

/-- The MD5 nonlinear mixing function for round `i`. -/
def md5F (i b c d : Nat) : Nat :=
  if i < 16 then (b &&& c) ||| ((4294967295 ^^^ b) &&& d)
  else if i < 32 then (d &&& b) ||| ((4294967295 ^^^ d) &&& c)
  else if i < 48 then b ^^^ c ^^^ d
  else c ^^^ (b ||| (4294967295 ^^^ d))

/-- The MD5 message-word index for round `i`. -/
def md5G (i : Nat) : Nat :=
  if i < 16 then i
  else if i < 32 then (5 * i + 1) % 16
  else if i < 48 then (3 * i + 5) % 16
  else (7 * i) % 16

/-- One MD5 round on the state `(a, b, c, d)` with message words `M`. -/
def md5Step (M : List Nat) (st : Nat × Nat × Nat × Nat) (i : Nat) :
    Nat × Nat × Nat × Nat :=
  let (a, b, c, d) := st
  let f := (md5F i b c d + a + md5K.getD i 0 + M.getD (md5G i) 0) % 4294967296
  (d, (b + rotl32 f (md5S.getD i 0)) % 4294967296, b, c)

/-- Little-endian 32-bit words of a byte list (bytes are masked to 8 bits). -/
def leWords : List Nat → List Nat
  | b0 :: b1 :: b2 :: b3 :: rest =>
      (b0 % 256 + 256 * (b1 % 256) + 65536 * (b2 % 256) +
        16777216 * (b3 % 256)) :: leWords rest
  | _ => []

/-- Split a byte list into 64-byte chunks; `fuel` bounds the recursion. -/
def chunks64 : Nat → List Nat → List (List Nat)
  | 0, _ => []
  | _ + 1, [] => []
  | fuel + 1, b :: rest =>
      (b :: rest).take 64 :: chunks64 fuel ((b :: rest).drop 64)

/-- Process one 64-byte block, updating the MD5 state. -/
def md5ProcessBlock (st : Nat × Nat × Nat × Nat) (block : List Nat) :
    Nat × Nat × Nat × Nat :=
  let M := leWords block
  let (a, b, c, d) := st
  let r := (List.range 64).foldl (md5Step M) (a, b, c, d)
  ((a + r.1) % 4294967296, (b + r.2.1) % 4294967296,
   (c + r.2.2.1) % 4294967296, (d + r.2.2.2) % 4294967296)

/-- Little-endian 64-bit byte encoding. -/
def le64 (n : Nat) : List Nat :=
  [n % 256, n / 256 % 256, n / 65536 % 256, n / 16777216 % 256,
   n / 4294967296 % 256, n / 1099511627776 % 256,
   n / 281474976710656 % 256, n / 72057594037927936 % 256]

/-- MD5 padding: `0x80`, zeros to 56 mod 64, then the bit length (LE). -/
def md5Pad (msg : List Nat) : List Nat :=
  msg ++ 128 :: List.replicate ((119 - msg.length % 64) % 64) 0 ++
    le64 (8 * msg.length % 18446744073709551616)

/-- Two-character lowercase hexadecimal rendering of a byte. -/
def byteHex (b : Nat) : String :=
  String.mk [Nat.digitChar (b / 16 % 16), Nat.digitChar (b % 16)]

/-- Little-endian hexadecimal rendering of a 32-bit word. -/
def hexLE32 (w : Nat) : String :=
  byteHex (w % 256) ++ byteHex (w / 256 % 256) ++
    byteHex (w / 65536 % 256) ++ byteHex (w / 16777216 % 256)

/-- The MD5 hex digest of a byte list (`hashlib.md5(...).hexdigest()`). -/
def md5hex (msg : List Nat) : String :=
  let padded := md5Pad msg
  let final := (chunks64 padded.length padded).foldl md5ProcessBlock
    (0x67452301, 0xefcdab89, 0x98badcfe, 0x10325476)
  hexLE32 final.1 ++ hexLE32 final.2.1 ++ hexLE32 final.2.2.1 ++
    hexLE32 final.2.2.2

/-! ### gzip transport (Python `gzip` module, external collaborator)

Modelled from the spec: the Python `gzip` standard library used by
`get_file_fingerprint` is not part of this repository; the spec describes
it as "attempt to treat the file as a compressed stream; if decompression
fails it falls back to reading raw bytes".  It is modelled here as an
RFC 1952 gzip member whose DEFLATE payload uses stored (uncompressed)
blocks, with the CRC32 / ISIZE trailer checks. -/

/-- One bit of the (reflected, polynomial `0xEDB88320`) CRC32 update. -/
def crc32Bits : Nat → Nat → Nat
  | 0, c => c
  | k + 1, c => crc32Bits k (if c % 2 = 1 then c / 2 ^^^ 0xEDB88320 else c / 2)

/-- Fold one byte into the CRC32 accumulator. -/
def crc32Update (crc b : Nat) : Nat :=
  crc32Bits 8 (crc ^^^ b % 256)

/-- CRC32 checksum of a byte list. -/
def crc32 (bs : List Nat) : Nat :=
  bs.foldl crc32Update 0xFFFFFFFF ^^^ 0xFFFFFFFF

/-- Little-endian 16-bit byte encoding. -/
def le16 (n : Nat) : List Nat :=
  [n % 256, n / 256 % 256]

/-- Little-endian 32-bit byte encoding. -/
def le32 (n : Nat) : List Nat :=
  [n % 256, n / 256 % 256, n / 65536 % 256, n / 16777216 % 256]

/-- gzip member header: magic `1f 8b`, deflate method, no flags. -/
def gzipHeader : List Nat :=
  [31, 139, 8, 0, 0, 0, 0, 0, 0, 255]

/-- A gzip member carrying `P` in a single stored DEFLATE block,
followed by the CRC32 and ISIZE trailer (payloads up to 65535 bytes). -/
def gzipCompress (P : List Nat) : List Nat :=
  gzipHeader ++ 1 :: P.length % 256 :: P.length / 256 % 256 ::
    (65535 - P.length) % 256 :: (65535 - P.length) / 256 % 256 ::
    (P ++ (le32 (crc32 P) ++ le32 P.length))

/-- Decode a sequence of stored DEFLATE blocks, returning the payload and
the remaining bytes; `fuel` bounds the recursion. -/
def inflateStored : Nat → List Nat → Option (List Nat × List Nat)
  | 0, _ => none
  | fuel + 1, b :: l0 :: l1 :: n0 :: n1 :: rest =>
      if b / 2 % 4 = 0 ∧ n0 + 256 * n1 = 65535 - (l0 + 256 * l1) ∧
          l0 + 256 * l1 ≤ rest.length then
        let len := l0 + 256 * l1
        if b % 2 = 1 then some (rest.take len, rest.drop len)
        else
          match inflateStored fuel (rest.drop len) with
          | some (p2, r2) => some (rest.take len ++ p2, r2)
          | none => none
      else none
  | _ + 1, _ => none

/-- Decode a gzip member: header check, stored DEFLATE blocks, then the
CRC32 / ISIZE trailer check.  `none` means decompression failed. -/
def gunzip? (bs : List Nat) : Option (List Nat) :=
  match bs with
  | 31 :: 139 :: 8 :: 0 :: _ :: _ :: _ :: _ :: _ :: _ :: rest =>
      match inflateStored rest.length rest with
      | some (payload, trailer) =>
          if trailer = le32 (crc32 payload) ++ le32 payload.length then
            some payload
          else none
      | none => none
  | _ => none

/-! ### The Fingerprint Computer (server.py 120-133) -/

/-- The 64KB-block hashing loop of `get_file_fingerprint`: while the last
read returned data, feed it to the MD5 accumulator (modelled as the bytes
accumulated so far) and read the next block.  `fuel` bounds the loop. -/
def hashLoop : Nat → List Nat → List Nat → String
  | _, acc, [] => md5hex acc
  | 0, acc, _ :: _ => md5hex acc
  | fuel + 1, acc, b :: rest =>
      hashLoop fuel (acc ++ (b :: rest).take 65536) ((b :: rest).drop 65536)

/-- `get_file_fingerprint` (server.py 120-133): try to read the file as a
gzip stream; if that fails (`except OSError`), read the raw bytes; hash
the bytes read in 64KB blocks with MD5 and return the hex digest.
The file's content stands in for the file path. -/
def get_file_fingerprint (content : List Nat) : String :=
  match gunzip? content with
  | some payload => hashLoop payload.length [] payload
  | none => hashLoop content.length [] content

/-! ### Data model (the `media` collection, server.py 212-224) -/

/-- A document of the `media` collection, with the fields inserted by
`add_item` (server.py 212-224). -/
structure MediaRecord where
  filename : String
  fingerprint : Option String
  height : Nat
  media_type : String
  mime_type : Option String
  processed : Bool
  src : String
  tags : List String
  title : String
  username : String
  width : Nat
deriving DecidableEq

/-- `db.media.find_one(filter)`: the first record matching the filter. -/
def find_one : List MediaRecord → (MediaRecord → Bool) → Option MediaRecord
  | [], _ => none
  | r :: rs, p => if p r then some r else find_one rs p

/-- `db.media.update_one(filter, {'$set': ...})`: rewrite the first record
matching the filter, leaving all other records untouched. -/
def update_one : List MediaRecord → (MediaRecord → Bool) →
    (MediaRecord → MediaRecord) → List MediaRecord
  | [], _, _ => []
  | r :: rs, p, f => if p r then f r :: rs else r :: update_one rs p f

/-! ### Filesystem (storage_path directory, external collaborator) -/

/-- The storage directory: an association of file names to byte contents. -/
abbrev Fs : Type := List (String × List Nat)

/-- Write (create or overwrite) a file. -/
def fsWrite : Fs → String → List Nat → Fs
  | [], n, bs => [(n, bs)]
  | (m, cs) :: rest, n, bs =>
      if m = n then (n, bs) :: rest else (m, cs) :: fsWrite rest n bs

/-- Read a file's content, if present. -/
def fsRead : Fs → String → Option (List Nat)
  | [], _ => none
  | (m, cs) :: rest, n => if m = n then some cs else fsRead rest n

/-- `os.remove`: delete a file. -/
def fsRemove : Fs → String → Fs
  | [], _ => []
  | (m, cs) :: rest, n =>
      if m = n then fsRemove rest n else (m, cs) :: fsRemove rest n

/-! ### Ingestion Intake (server.py 201-226, 258-263) -/

/-- `REQUIRED_FIELDS` (server.py 19-20). -/
def REQUIRED_FIELDS : List String :=
  ["height", "media_type", "src", "tags", "title", "username", "width"]

/-- An ingestion request body: each of the seven fields is present
(`some`) or absent (`none`), mirroring key presence in the JSON dict. -/
structure Request where
  height : Option Nat
  media_type : Option String
  src : Option String
  tags : Option (List String)
  title : Option String
  username : Option String
  width : Option Nat
deriving DecidableEq

/-- Key-presence test on the request dict (`field not in data`). -/
def hasField (req : Request) : String → Bool
  | "height" => req.height.isSome
  | "media_type" => req.media_type.isSome
  | "src" => req.src.isSome
  | "tags" => req.tags.isSome
  | "title" => req.title.isSome
  | "username" => req.username.isSome
  | "width" => req.width.isSome
  | _ => false

/-- The field-checking loop of `validate_item`: raise on the first
required field missing from the request. -/
def validateFields (req : Request) : List String → Except String Unit
  | [] => Except.ok ()
  | f :: rest =>
      if hasField req f then validateFields req rest
      else Except.error ("Expected required field - '" ++ f ++ "'")

/-- `validate_item` (server.py 258-263): check the required fields in the
order of `REQUIRED_FIELDS`; the error carries the exception's message. -/
def validate_item (req : Request) : Except String Unit :=
  validateFields req REQUIRED_FIELDS

/-- `glom_media` (server.py 83-89) starts a daemon thread running
`download_media` on the record; modelled as handing back the task's
payload for the (separately modelled) background pipeline to consume. -/
def glom_media (doc : MediaRecord) : MediaRecord := doc

/-- `add_item` (server.py 201-226): validate the request (abort 400 with
the validation message on failure), build the pending document under a
fresh uuid4 hex identifier (`new_id`, an input of the model), insert it,
and launch the background task carrying the document.  On success the
result is the new collection contents and the launched task's payload;
the route returns to the caller without waiting for the task. -/
def add_item (store : List MediaRecord) (req : Request) (new_id : String) :
    Except String (List MediaRecord × MediaRecord) :=
  match validate_item req with
  | Except.error e => Except.error e
  | Except.ok () =>
      match req.height, req.media_type, req.src, req.tags, req.title,
          req.username, req.width with
      | some h, some mt, some s, some tg, some ti, some u, some w =>
          let doc : MediaRecord :=
            { filename := new_id, fingerprint := none, height := h,
              media_type := mt, mime_type := none, processed := false,
              src := s, tags := tg, title := ti, username := u, width := w }
          Except.ok (store ++ [doc], glom_media doc)
      | _, _, _, _, _, _, _ => Except.error "KeyError"

/-! ### Background pipeline (server.py 74-118) -/

/-- Outcome of the streaming transfer in `begin_download`: either the
full content was written, or the transfer raised mid-stream after
writing a prefix of it (leaving a partial file). -/
inductive DownloadOutcome where
  | complete (bytes : List Nat)
  | interrupted (bytes : List Nat)
deriving DecidableEq

/-- `begin_download` (server.py 74-80): stream the resource to
`storage_path/filename`, chunk by chunk, and return the local path; on a
mid-transfer failure the partial file remains and the exception
propagates (`none`).  The chunk size (1MB for video, 1KB otherwise) is a
throughput choice that does not affect the written bytes. -/
def begin_download (fs : Fs) (data : MediaRecord) (outcome : DownloadOutcome) :
    Fs × Option String :=
  match outcome with
  | DownloadOutcome.complete bs => (fsWrite fs data.filename bs, some data.filename)
  | DownloadOutcome.interrupted bs => (fsWrite fs data.filename bs, none)

/-- `download_media` (server.py 91-118): download, fingerprint, sniff the
MIME type (`sniff`, the libmagic result, `none` if the sniff raises),
then resolve duplicates: if another record already carries the
fingerprint, repoint the current record (selected by its filename) at
the canonical record's file and delete the downloaded file; otherwise
finalize the current record in place.  The returned flag is `false` when
an exception escaped the daemon thread before any record update. -/
def download_media (store : List MediaRecord) (fs : Fs) (data : MediaRecord)
    (outcome : DownloadOutcome) (sniff : Option String) :
    List MediaRecord × Fs × Bool :=
  match begin_download fs data outcome with
  | (fs1, none) => (store, fs1, false)
  | (fs1, some file_location) =>
      let filehash := get_file_fingerprint ((fsRead fs1 file_location).getD [])
      match sniff with
      | none => (store, fs1, false)
      | some mime_type =>
          match find_one store (fun r => r.fingerprint == some filehash) with
          | some same_file =>
              (update_one store (fun r => r.filename == data.filename)
                (fun r =>
                  { r with filename := same_file.filename,
                           fingerprint := some filehash,
                           mime_type := some mime_type, processed := true }),
               fsRemove fs1 file_location, true)
          | none =>
              (update_one store (fun r => r.filename == data.filename)
                (fun r =>
                  { r with fingerprint := some filehash,
                           mime_type := some mime_type, processed := true }),
               fs1, true)

/-- The record-level invariant of the spec's data model:
`fingerprint == null ⇔ processed == false`. -/
def recInv (r : MediaRecord) : Prop :=
  r.fingerprint = none ↔ r.processed = false

instance recInvDecidable (r : MediaRecord) : Decidable (recInv r) :=
  decidable_of_iff (r.fingerprint = none ↔ r.processed = false) Iff.rfl

/-! ### Concrete witnesses -/

/-- Concrete request omitting exactly the `tags` field (Scenario C). -/
def reqMissingTags : Request :=
  { height := some 100, media_type := some "image", src := some "http://x/y",
    tags := none, title := some "a title", username := some "user",
    width := some 50 }

/-- Concrete request omitting both `src` and `title`. -/
def reqMissingSrcTitle : Request :=
  { height := some 100, media_type := some "image", src := none,
    tags := some ["x"], title := none, username := some "user",
    width := some 50 }

/-- Concrete request with all seven required fields present. -/
def reqFull : Request :=
  { height := some 100, media_type := some "image", src := some "http://x/y",
    tags := some ["x"], title := some "a title", username := some "user",
    width := some 50 }

/-- A concrete processed canonical record whose fingerprint is the digest
of the one-byte content `[104]`. -/
def wCanon : MediaRecord :=
  { filename := "canonical", fingerprint := some (get_file_fingerprint [104]),
    height := 10, media_type := "image", mime_type := some "image/png",
    processed := true, src := "http://a", tags := ["x"], title := "t1",
    username := "u", width := 20 }

/-- A concrete pending record, as created by the Ingestion Intake. -/
def wCur : MediaRecord :=
  { filename := "fresh", fingerprint := none, height := 10,
    media_type := "image", mime_type := none, processed := false,
    src := "http://b", tags := ["x"], title := "t2", username := "u",
    width := 20 }

/-- The pending record created by `add_item` for `reqFull` under the
identifier `id9`. -/
def wDoc9 : MediaRecord :=
  { filename := "id9", fingerprint := none, height := 100,
    media_type := "image", mime_type := none, processed := false,
    src := "http://x/y", tags := ["x"], title := "a title",
    username := "user", width := 50 }

/-! ### Helper lemmas -/

/-- The 64KB hashing loop digests the accumulated bytes followed by the
remaining bytes, given enough fuel. -/
theorem hashLoop_eq (fuel : Nat) :
    ∀ acc rest : List Nat, rest.length ≤ fuel →
      hashLoop fuel acc rest = md5hex (acc ++ rest) := by
  induction fuel with
  | zero =>
      intro acc rest h
      have : rest = [] := List.eq_nil_of_length_eq_zero (Nat.le_zero.mp h)
      subst this
      simp [hashLoop]
  | succ n ih =>
      intro acc rest h
      cases rest with
      | nil => simp [hashLoop]
      | cons b t =>
          have hlen : ((b :: t).drop 65536).length ≤ n := by
            simp only [List.length_drop, List.length_cons]
            simp only [List.length_cons] at h
            omega
          rw [hashLoop, ih _ _ hlen, List.append_assoc, List.take_append_drop]

/-- `get_file_fingerprint` returns the MD5 hex digest of the decompressed
content when the file decodes as gzip, and of the raw content otherwise. -/
theorem get_file_fingerprint_def (content : List Nat) :
    get_file_fingerprint content =
      match gunzip? content with
      | some payload => md5hex payload
      | none => md5hex content := by
  unfold get_file_fingerprint
  cases gunzip? content with
  | none =>
      show hashLoop content.length [] content = md5hex content
      rw [hashLoop_eq _ _ _ (Nat.le_refl _), List.nil_append]
  | some payload =>
      show hashLoop payload.length [] payload = md5hex payload
      rw [hashLoop_eq _ _ _ (Nat.le_refl _), List.nil_append]

/-- A single stored DEFLATE block followed by trailing bytes decodes to
its payload and the trailing bytes. -/
theorem inflateStored_stored_block (P t : List Nat) (fuel : Nat)
    (hfuel : 1 ≤ fuel) (hL : P.length ≤ 65535) :
    inflateStored fuel
      (1 :: P.length % 256 :: P.length / 256 % 256 ::
        (65535 - P.length) % 256 :: (65535 - P.length) / 256 % 256 ::
        (P ++ t)) = some (P, t) := by
  obtain ⟨k, rfl⟩ : ∃ k, fuel = k + 1 := ⟨fuel - 1, by omega⟩
  have hlen : P.length % 256 + 256 * (P.length / 256 % 256) = P.length := by
    omega
  rw [inflateStored]
  rw [if_pos]
  · rw [if_pos (by decide)]
    rw [hlen, List.take_left' rfl, List.drop_left' rfl]
  · refine ⟨by decide, by omega, ?_⟩
    rw [hlen, List.length_append]
    omega

/-- The gzip model round-trips: compressing a payload of at most 65535
bytes and decoding it recovers the payload. -/
theorem gunzip_gzipCompress (P : List Nat) (hL : P.length ≤ 65535) :
    gunzip? (gzipCompress P) = some P := by
  have hform : gzipCompress P =
      31 :: 139 :: 8 :: 0 :: 0 :: 0 :: 0 :: 0 :: 0 :: 255 ::
        (1 :: P.length % 256 :: P.length / 256 % 256 ::
          (65535 - P.length) % 256 :: (65535 - P.length) / 256 % 256 ::
          (P ++ (le32 (crc32 P) ++ le32 P.length))) := by
    simp [gzipCompress, gzipHeader]
  rw [hform, gunzip?]
  rw [inflateStored_stored_block P _ _ (by simp) hL]
  simp

/-- Reading a file just written returns the written bytes. -/
theorem fsRead_fsWrite_self (fs : Fs) (n : String) (bs : List Nat) :
    fsRead (fsWrite fs n bs) n = some bs := by
  induction fs with
  | nil => simp [fsWrite, fsRead]
  | cons e rest ih =>
      obtain ⟨m, cs⟩ := e
      by_cases h : m = n
      · simp [fsWrite, fsRead, h]
      · simp [fsWrite, fsRead, h, ih]

/-- Reading a file just removed returns nothing. -/
theorem fsRead_fsRemove_self (fs : Fs) (n : String) :
    fsRead (fsRemove fs n) n = none := by
  induction fs with
  | nil => simp [fsRemove, fsRead]
  | cons e rest ih =>
      obtain ⟨m, cs⟩ := e
      by_cases h : m = n
      · simp [fsRemove, h, ih]
      · simp [fsRemove, fsRead, h, ih]

/-- `update_one` rewrites exactly the first matching record when no
earlier record matches. -/
theorem update_one_append (pre post : List MediaRecord) (cur : MediaRecord)
    (p : MediaRecord → Bool) (f : MediaRecord → MediaRecord)
    (hpre : ∀ r ∈ pre, p r = false) (hcur : p cur = true) :
    update_one (pre ++ cur :: post) p f = pre ++ f cur :: post := by
  induction pre with
  | nil => simp [update_one, hcur]
  | cons r rest ih =>
      have hr : p r = false := hpre r (List.mem_cons_self r rest)
      simp only [List.cons_append, update_one, hr, Bool.false_eq_true,
        if_false, List.append_eq]
      rw [ih fun x hx => hpre x (List.mem_cons_of_mem r hx)]

/-- A pointwise property preserved by the rewriting function is preserved
by `update_one`. -/
theorem update_one_forall (s : List MediaRecord) (p : MediaRecord → Bool)
    (f : MediaRecord → MediaRecord) (P : MediaRecord → Prop)
    (h : ∀ r ∈ s, P r) (hf : ∀ r, P (f r)) :
    ∀ r ∈ update_one s p f, P r := by
  induction s with
  | nil => simp [update_one]
  | cons a rest ih =>
      intro r hr
      by_cases ha : p a
      · simp only [update_one, if_pos ha] at hr
        rcases List.mem_cons.mp hr with rfl | hmem
        · exact hf a
        · exact h r (List.mem_cons_of_mem a hmem)
      · simp only [update_one, if_neg ha] at hr
        rcases List.mem_cons.mp hr with rfl | hmem
        · exact h _ (List.mem_cons_self _ rest)
        · exact ih (fun x hx => h x (List.mem_cons_of_mem _ hx)) r hmem

/-- A record returned by `find_one` belongs to the collection and
satisfies the filter. -/
theorem find_one_mem (s : List MediaRecord) (p : MediaRecord → Bool)
    (a : MediaRecord) (h : find_one s p = some a) : a ∈ s ∧ p a = true := by
  induction s with
  | nil => simp [find_one] at h
  | cons r rest ih =>
      by_cases hr : p r
      · simp only [find_one, if_pos hr, Option.some.injEq] at h
        subst h
        exact ⟨List.mem_cons_self r rest, hr⟩
      · simp only [find_one, if_neg hr] at h
        obtain ⟨hmem, hp⟩ := ih h
        exact ⟨List.mem_cons_of_mem r hmem, hp⟩

/-- The validation loop reports the first missing field: all fields
before it pass, it fails, and the loop stops there. -/
theorem validateFields_first_missing (req : Request) (pre post : List String)
    (f : String) (hpre : ∀ g ∈ pre, hasField req g = true)
    (hf : hasField req f = false) :
    validateFields req (pre ++ f :: post) =
      Except.error ("Expected required field - '" ++ f ++ "'") := by
  induction pre with
  | nil => simp [validateFields, hf]
  | cons g rest ih =>
      have hg : hasField req g = true := hpre g (List.mem_cons_self g rest)
      simp only [List.cons_append, validateFields, hg, if_pos]
      exact ih fun x hx => hpre x (List.mem_cons_of_mem g hx)

/-- `validate_item` fails with the message naming `f` whenever `f` is a
required field, every required field listed before `f` is present in the
request, and `f` is absent. -/
theorem validate_item_error_of (req : Request) (pre post : List String)
    (f : String) (hsplit : REQUIRED_FIELDS = pre ++ f :: post)
    (hpre : ∀ g ∈ pre, hasField req g = true)
    (hf : hasField req f = false) :
    validate_item req =
      Except.error ("Expected required field - '" ++ f ++ "'") := by
  show validateFields req REQUIRED_FIELDS = _
  rw [hsplit]
  exact validateFields_first_missing req pre post f hpre hf

/-! ### Claims -/

set_option maxRecDepth 1000000 in
/-- C1 is refuted at the concrete payload `P = gzipCompress [104]`: a
payload that is itself a valid gzip stream is decompressed even when
delivered raw, so the digest for the file containing `gzip(P)` (the MD5
of `P`) differs from the digest for the file containing `P` raw (the MD5
of `[104]`, `P`'s own decompressed payload). -/
theorem C1_counterexample_self_compressed_payload :
    get_file_fingerprint (gzipCompress (gzipCompress [104])) ≠
      get_file_fingerprint (gzipCompress [104]) := by
  decide

/-- C1 (amended): for every payload `P` that does not itself decode as a
gzip stream (and fits the model's single stored block), the Fingerprint
Computer yields the same digest whether the file contains `P` raw or a
gzip stream whose decompressed payload is `P`. -/
theorem C1_amended_transport_invariant_digest (P : List Nat)
    (hL : P.length ≤ 65535) (hraw : gunzip? P = none) :
    get_file_fingerprint (gzipCompress P) = get_file_fingerprint P := by
  rw [get_file_fingerprint_def, get_file_fingerprint_def,
    gunzip_gzipCompress P hL, hraw]

/-- Witness for the amended C1 at the payload `[1, 2, 3]`. -/
theorem C1_amended_transport_invariant_digest_witness :
    ([1, 2, 3] : List Nat).length ≤ 65535 ∧
      gunzip? [1, 2, 3] = none ∧
      get_file_fingerprint (gzipCompress [1, 2, 3]) =
        get_file_fingerprint [1, 2, 3] :=
  ⟨by decide, by decide,
    C1_amended_transport_invariant_digest [1, 2, 3] (by decide) (by decide)⟩

/-- C4: the Fingerprint Computer reads in 64KB blocks feeding an
incremental MD5 accumulator (the `hashLoop` of `get_file_fingerprint`),
first attempting the file as a gzip stream and falling back to the raw
bytes when decoding fails: the returned digest is the MD5 hex digest of
the decompressed content when the file is valid gzip, and of the raw
content otherwise. -/
theorem C4_fingerprint_md5_blocks_gzip_fallback (content : List Nat) :
    get_file_fingerprint content =
      match gunzip? content with
      | some payload => md5hex payload
      | none => md5hex content :=
  get_file_fingerprint_def content

/-- C5: a request in which exactly one of the seven required fields is
absent is rejected synchronously with a validation error naming exactly
that field, and no record is created. -/
theorem C5_single_missing_field_rejected (req : Request) (f : String)
    (store : List MediaRecord) (new_id : String)
    (hmem : f ∈ REQUIRED_FIELDS) (hf : hasField req f = false)
    (hothers : ∀ g ∈ REQUIRED_FIELDS, g ≠ f → hasField req g = true) :
    add_item store req new_id =
      Except.error ("Expected required field - '" ++ f ++ "'") := by
  have hval : validate_item req =
      Except.error ("Expected required field - '" ++ f ++ "'") := by
    simp only [REQUIRED_FIELDS] at hmem
    fin_cases hmem
    · exact validate_item_error_of req [] _ _ rfl (by simp) hf
    · refine validate_item_error_of req ["height"] _ _ rfl ?_ hf
      intro g hg
      fin_cases hg
      · exact hothers "height" (by decide) (by decide)
    · refine validate_item_error_of req ["height", "media_type"] _ _ rfl ?_ hf
      intro g hg
      fin_cases hg
      · exact hothers "height" (by decide) (by decide)
      · exact hothers "media_type" (by decide) (by decide)
    · refine validate_item_error_of req ["height", "media_type", "src"] _ _
        rfl ?_ hf
      intro g hg
      fin_cases hg
      · exact hothers "height" (by decide) (by decide)
      · exact hothers "media_type" (by decide) (by decide)
      · exact hothers "src" (by decide) (by decide)
    · refine validate_item_error_of req ["height", "media_type", "src", "tags"]
        _ _ rfl ?_ hf
      intro g hg
      fin_cases hg
      · exact hothers "height" (by decide) (by decide)
      · exact hothers "media_type" (by decide) (by decide)
      · exact hothers "src" (by decide) (by decide)
      · exact hothers "tags" (by decide) (by decide)
    · refine validate_item_error_of req
        ["height", "media_type", "src", "tags", "title"] _ _ rfl ?_ hf
      intro g hg
      fin_cases hg
      · exact hothers "height" (by decide) (by decide)
      · exact hothers "media_type" (by decide) (by decide)
      · exact hothers "src" (by decide) (by decide)
      · exact hothers "tags" (by decide) (by decide)
      · exact hothers "title" (by decide) (by decide)
    · refine validate_item_error_of req
        ["height", "media_type", "src", "tags", "title", "username"] _ _ rfl
        ?_ hf
      intro g hg
      fin_cases hg
      · exact hothers "height" (by decide) (by decide)
      · exact hothers "media_type" (by decide) (by decide)
      · exact hothers "src" (by decide) (by decide)
      · exact hothers "tags" (by decide) (by decide)
      · exact hothers "title" (by decide) (by decide)
      · exact hothers "username" (by decide) (by decide)
  unfold add_item
  rw [hval]

/-- Witness for C5 at a request omitting exactly `tags`. -/
theorem C5_single_missing_field_rejected_witness :
    "tags" ∈ REQUIRED_FIELDS ∧ hasField reqMissingTags "tags" = false ∧
      (∀ g ∈ REQUIRED_FIELDS, g ≠ "tags" → hasField reqMissingTags g = true) ∧
      add_item [] reqMissingTags "id1" =
        Except.error ("Expected required field - '" ++ "tags" ++ "'") :=
  ⟨by decide, by decide, by decide,
    C5_single_missing_field_rejected reqMissingTags "tags" [] "id1"
      (by decide) (by decide) (by decide)⟩

/-- C9: when several required fields are missing, validation reports only
the first missing field in the order `height, media_type, src, tags,
title, username, width` and stops there. -/
theorem C9_first_missing_field_reported (req : Request)
    (pre post : List String) (f g : String)
    (hsplit : REQUIRED_FIELDS = pre ++ f :: post)
    (hpre : ∀ x ∈ pre, hasField req x = true)
    (hf : hasField req f = false)
    (hg : g ∈ post) (hgmiss : hasField req g = false) :
    validate_item req =
      Except.error ("Expected required field - '" ++ f ++ "'") :=
  validate_item_error_of req pre post f hsplit hpre hf

/-- Witness for C9 at a request missing both `src` and `title`: the error
names `src`, the first of the two in the required order. -/
theorem C9_first_missing_field_reported_witness :
    REQUIRED_FIELDS = ["height", "media_type"] ++ "src" ::
        ["tags", "title", "username", "width"] ∧
      (∀ x ∈ ["height", "media_type"],
        hasField reqMissingSrcTitle x = true) ∧
      hasField reqMissingSrcTitle "src" = false ∧
      "title" ∈ ["tags", "title", "username", "width"] ∧
      hasField reqMissingSrcTitle "title" = false ∧
      validate_item reqMissingSrcTitle =
        Except.error ("Expected required field - '" ++ "src" ++ "'") :=
  ⟨by decide, by decide, by decide, by decide, by decide,
    C9_first_missing_field_reported reqMissingSrcTitle
      ["height", "media_type"] ["tags", "title", "username", "width"]
      "src" "title" (by decide) (by decide) (by decide) (by decide)
      (by decide)⟩

/-- C6: a valid ingestion request makes `add_item` persist exactly one
new record — carrying the supplied fields under the fresh identifier,
with `processed = false`, `fingerprint = none`, `mime_type = none` — and
hand that record to the single launched background task, returning
without running the task; filename uniqueness is preserved. -/
theorem C6_intake_creates_pending_record (store : List MediaRecord)
    (new_id : String) (h w : Nat) (mt s ti u : String) (tg : List String)
    (hfresh : new_id ∉ store.map MediaRecord.filename)
    (hnodup : (store.map MediaRecord.filename).Nodup) :
    add_item store
        { height := some h, media_type := some mt, src := some s,
          tags := some tg, title := some ti, username := some u,
          width := some w } new_id =
      Except.ok (store ++
        [{ filename := new_id, fingerprint := none, height := h,
           media_type := mt, mime_type := none, processed := false,
           src := s, tags := tg, title := ti, username := u, width := w }],
        { filename := new_id, fingerprint := none, height := h,
          media_type := mt, mime_type := none, processed := false,
          src := s, tags := tg, title := ti, username := u, width := w }) ∧
    ((store ++
      [({ filename := new_id, fingerprint := none, height := h,
          media_type := mt, mime_type := none, processed := false,
          src := s, tags := tg, title := ti, username := u,
          width := w } : MediaRecord)]).map MediaRecord.filename).Nodup := by
  constructor
  · simp [add_item, validate_item, validateFields, REQUIRED_FIELDS, hasField,
      glom_media]
  · have hcat := List.Nodup.concat hfresh hnodup
    rw [List.concat_eq_append] at hcat
    simpa [List.map_append] using hcat

/-- Witness for C6 at a concrete valid request over the empty store. -/
theorem C6_intake_creates_pending_record_witness :
    "id9" ∉ ([] : List MediaRecord).map MediaRecord.filename ∧
      (([] : List MediaRecord).map MediaRecord.filename).Nodup ∧
      (add_item [] reqFull "id9" = Except.ok ([wDoc9], wDoc9) ∧
        (([] ++ [wDoc9]).map MediaRecord.filename).Nodup) :=
  ⟨by decide, by decide,
    C6_intake_creates_pending_record [] "id9" 100 50 "image" "http://x/y"
      "a title" "user" ["x"] (by decide) (by decide)⟩

set_option maxRecDepth 1000000 in
/-- C2: when the dedup query finds a canonical record already carrying
the computed fingerprint, the pipeline rewrites the current record
(selected by its original filename) to the canonical record's filename,
sets its fingerprint and sniffed mime type, marks it processed, and
deletes the just-downloaded physical file. -/
theorem C2_dedup_match_merges_record (pre post : List MediaRecord)
    (cur canon data : MediaRecord) (fs : Fs) (bytes : List Nat)
    (mime : String)
    (hcur : cur.filename = data.filename)
    (hpre : ∀ r ∈ pre, r.filename ≠ data.filename)
    (hfind : find_one (pre ++ cur :: post)
        (fun r => r.fingerprint == some (get_file_fingerprint bytes)) =
      some canon) :
    download_media (pre ++ cur :: post) fs data
        (DownloadOutcome.complete bytes) (some mime) =
      (pre ++
        { cur with
            filename := canon.filename,
            fingerprint := some (get_file_fingerprint bytes),
            mime_type := some mime,
            processed := true } :: post,
        fsRemove (fsWrite fs data.filename bytes) data.filename, true) ∧
    fsRead (fsRemove (fsWrite fs data.filename bytes) data.filename)
      data.filename = none := by
  constructor
  · have hread : (fsRead (fsWrite fs data.filename bytes)
        data.filename).getD [] = bytes := by
      rw [fsRead_fsWrite_self]
      rfl
    simp only [download_media, begin_download, hread, hfind]
    rw [update_one_append pre post cur _ _
      (fun r hr => beq_eq_false_iff_ne.mpr (hpre r hr))
      (by simp [hcur])]
  · exact fsRead_fsRemove_self _ _

set_option maxRecDepth 1000000 in
/-- Witness for C2: one canonical record for the digest of `[104]` and
one pending record; the pending record is merged into the canonical one
and its downloaded file is deleted. -/
theorem C2_dedup_match_merges_record_witness :
    wCur.filename = wCur.filename ∧
      (∀ r ∈ [wCanon], r.filename ≠ wCur.filename) ∧
      find_one ([wCanon] ++ wCur :: [])
        (fun r => r.fingerprint == some (get_file_fingerprint [104])) =
        some wCanon ∧
      (download_media ([wCanon] ++ wCur :: []) [] wCur
          (DownloadOutcome.complete [104]) (some "image/png") =
        ([wCanon] ++
          { wCur with
              filename := wCanon.filename,
              fingerprint := some (get_file_fingerprint [104]),
              mime_type := some "image/png",
              processed := true } :: [],
          fsRemove (fsWrite [] wCur.filename [104]) wCur.filename, true) ∧
      fsRead (fsRemove (fsWrite [] wCur.filename [104]) wCur.filename)
        wCur.filename = none) :=
  ⟨rfl, by decide, by decide,
    C2_dedup_match_merges_record [wCanon] [] wCur wCanon wCur [] [104]
      "image/png" rfl (by decide) (by decide)⟩

set_option maxRecDepth 1000000 in
/-- C3: when the dedup query finds no record carrying the computed
fingerprint, the update sets exactly `fingerprint`, `mime_type` and
`processed` on the current record, leaves `filename`, `src`, `title`,
`username`, `tags`, `height`, `width` and `media_type` unchanged, and
the downloaded physical file is kept. -/
theorem C3_dedup_no_match_frame (pre post : List MediaRecord)
    (cur data : MediaRecord) (fs : Fs) (bytes : List Nat) (mime : String)
    (hcur : cur.filename = data.filename)
    (hpre : ∀ r ∈ pre, r.filename ≠ data.filename)
    (hfind : find_one (pre ++ cur :: post)
        (fun r => r.fingerprint == some (get_file_fingerprint bytes)) =
      none) :
    download_media (pre ++ cur :: post) fs data
        (DownloadOutcome.complete bytes) (some mime) =
      (pre ++
        { cur with
            fingerprint := some (get_file_fingerprint bytes),
            mime_type := some mime,
            processed := true } :: post,
        fsWrite fs data.filename bytes, true) ∧
    ({ cur with
         fingerprint := some (get_file_fingerprint bytes),
         mime_type := some mime,
         processed := true } : MediaRecord).filename = cur.filename ∧
    ({ cur with
         fingerprint := some (get_file_fingerprint bytes),
         mime_type := some mime,
         processed := true } : MediaRecord).src = cur.src ∧
    ({ cur with
         fingerprint := some (get_file_fingerprint bytes),
         mime_type := some mime,
         processed := true } : MediaRecord).title = cur.title ∧
    ({ cur with
         fingerprint := some (get_file_fingerprint bytes),
         mime_type := some mime,
         processed := true } : MediaRecord).username = cur.username ∧
    ({ cur with
         fingerprint := some (get_file_fingerprint bytes),
         mime_type := some mime,
         processed := true } : MediaRecord).tags = cur.tags ∧
    ({ cur with
         fingerprint := some (get_file_fingerprint bytes),
         mime_type := some mime,
         processed := true } : MediaRecord).height = cur.height ∧
    ({ cur with
         fingerprint := some (get_file_fingerprint bytes),
         mime_type := some mime,
         processed := true } : MediaRecord).width = cur.width ∧
    ({ cur with
         fingerprint := some (get_file_fingerprint bytes),
         mime_type := some mime,
         processed := true } : MediaRecord).media_type = cur.media_type ∧
    fsRead (fsWrite fs data.filename bytes) data.filename = some bytes := by
  refine ⟨?_, rfl, rfl, rfl, rfl, rfl, rfl, rfl, rfl,
    fsRead_fsWrite_self _ _ _⟩
  have hread : (fsRead (fsWrite fs data.filename bytes)
      data.filename).getD [] = bytes := by
    rw [fsRead_fsWrite_self]
    rfl
  simp only [download_media, begin_download, hread, hfind]
  rw [update_one_append pre post cur _ _
    (fun r hr => beq_eq_false_iff_ne.mpr (hpre r hr))
    (by simp [hcur])]

set_option maxRecDepth 1000000 in
/-- Witness for C3: a store holding only the pending record; it is
finalized in place and its file survives with the downloaded bytes. -/
theorem C3_dedup_no_match_frame_witness :
    wCur.filename = wCur.filename ∧
      (∀ r ∈ ([] : List MediaRecord), r.filename ≠ wCur.filename) ∧
      find_one ([] ++ wCur :: [])
        (fun r => r.fingerprint == some (get_file_fingerprint [104])) =
        none ∧
      (download_media ([] ++ wCur :: []) [] wCur
          (DownloadOutcome.complete [104]) (some "image/png") =
        ([] ++
          { wCur with
              fingerprint := some (get_file_fingerprint [104]),
              mime_type := some "image/png",
              processed := true } :: [],
          fsWrite [] wCur.filename [104], true) ∧
      fsRead (fsWrite [] wCur.filename [104]) wCur.filename = some [104]) :=
  ⟨rfl, by decide, by decide, by
    have := C3_dedup_no_match_frame [] [] wCur wCur [] [104] "image/png"
      rfl (by decide) (by decide)
    exact ⟨this.1, this.2.2.2.2.2.2.2.2.2⟩⟩

/-- C7: `fingerprint == null ⇔ processed == false` holds for every
record after every core operation: `add_item` creates records with both
unset, and each `download_media` branch sets a non-null fingerprint and
`processed = true` in the same single update. -/
theorem C7_fingerprint_processed_invariant (store : List MediaRecord)
    (req : Request) (new_id : String) (fs : Fs) (data : MediaRecord)
    (o : DownloadOutcome) (sniff : Option String)
    (hstore : ∀ r ∈ store, recInv r) :
    (∀ store2 doc, add_item store req new_id = Except.ok (store2, doc) →
      ∀ r ∈ store2, recInv r) ∧
    (∀ r ∈ (download_media store fs data o sniff).1, recInv r) := by
  constructor
  · intro store2 doc hok
    unfold add_item at hok
    split at hok
    · exact absurd hok (by simp)
    · split at hok
      · simp only [glom_media, Except.ok.injEq, Prod.mk.injEq] at hok
        obtain ⟨h1, h2⟩ := hok
        subst store2
        intro r hr
        rcases List.mem_append.mp hr with hmem | hmem
        · exact hstore r hmem
        · simp only [List.mem_singleton] at hmem
          subst hmem
          simp [recInv]
      · exact absurd hok (by simp)
  · cases o with
    | interrupted pb =>
        simpa only [download_media, begin_download] using hstore
    | complete bs =>
        cases sniff with
        | none => simpa only [download_media, begin_download] using hstore
        | some mime =>
            simp only [download_media, begin_download]
            split
            · exact update_one_forall _ _ _ recInv hstore
                (by intro r; simp [recInv])
            · exact update_one_forall _ _ _ recInv hstore
                (by intro r; simp [recInv])

set_option maxRecDepth 1000000 in
/-- Witness for C7 at a store holding one processed canonical record,
one concrete valid request, and one complete pipeline run. -/
theorem C7_fingerprint_processed_invariant_witness :
    (∀ r ∈ [wCanon], recInv r) ∧
      ((∀ store2 doc, add_item [wCanon] reqFull "id9" =
          Except.ok (store2, doc) → ∀ r ∈ store2, recInv r) ∧
        (∀ r ∈ (download_media [wCanon] [] wCur
            (DownloadOutcome.complete [104]) (some "image/png")).1,
          recInv r)) :=
  ⟨by decide,
    C7_fingerprint_processed_invariant [wCanon] reqFull "id9" [] wCur
      (DownloadOutcome.complete [104]) (some "image/png") (by decide)⟩

/-- C8: a pipeline failure (interrupted transfer, or a failing MIME
sniff) applies no update to the store — every record, in particular the
one being processed, keeps `processed = false` and `fingerprint = none`
— while the (possibly partial) downloaded file remains on disk, and the
task ends without any report to the request path. -/
theorem C8_pipeline_failure_leaves_record_pending (store : List MediaRecord)
    (fs : Fs) (data : MediaRecord) (pb full : List Nat)
    (sniff : Option String) :
    ((download_media store fs data (DownloadOutcome.interrupted pb)
        sniff).1 = store ∧
      (download_media store fs data (DownloadOutcome.interrupted pb)
        sniff).2.2 = false ∧
      fsRead (download_media store fs data (DownloadOutcome.interrupted pb)
        sniff).2.1 data.filename = some pb) ∧
    ((download_media store fs data (DownloadOutcome.complete full)
        none).1 = store ∧
      (download_media store fs data (DownloadOutcome.complete full)
        none).2.2 = false ∧
      fsRead (download_media store fs data (DownloadOutcome.complete full)
        none).2.1 data.filename = some full) := by
  refine ⟨⟨rfl, rfl, ?_⟩, ⟨rfl, rfl, ?_⟩⟩
  · simp only [download_media, begin_download]
    exact fsRead_fsWrite_self _ _ _
  · simp only [download_media, begin_download]
    exact fsRead_fsWrite_self _ _ _

set_option maxRecDepth 1000000 in
/-- C10: at dedup time the record under processing still has a null
fingerprint in the store, so the dedup query can only return a different
record: a record is never merged into itself. -/
theorem C10_no_self_merge (store : List MediaRecord) (data canon : MediaRecord)
    (bytes : List Nat)
    (hpend : ∀ r ∈ store, r.filename = data.filename →
      r.fingerprint = none)
    (hfind : find_one store
        (fun r => r.fingerprint == some (get_file_fingerprint bytes)) =
      some canon) :
    canon.filename ≠ data.filename := by
  obtain ⟨hmem, hp⟩ := find_one_mem store _ canon hfind
  intro heq
  rw [hpend canon hmem heq] at hp
  simp at hp

set_option maxRecDepth 1000000 in
/-- Witness for C10: with one canonical record and one pending record,
the dedup match is the canonical record, not the record under
processing. -/
theorem C10_no_self_merge_witness :
    (∀ r ∈ [wCanon, wCur], r.filename = wCur.filename →
        r.fingerprint = none) ∧
      find_one [wCanon, wCur]
        (fun r => r.fingerprint == some (get_file_fingerprint [104])) =
        some wCanon ∧
      wCanon.filename ≠ wCur.filename :=
  ⟨by decide, by decide,
    C10_no_self_merge [wCanon, wCur] wCur wCanon [104] (by decide)
      (by decide)⟩

end Glom
